import Mathlib

/-!
Verification development for the video-editor GUI bridge and timeline
interaction engine (src/gui/rust/src/lib.rs).

The Rust code is shallowly embedded: `f32` arithmetic is modelled over the
exact rationals `ℚ`, egui `Response` objects become records of the boolean
drag flags and pointer data the code reads, the mpsc intent channel becomes
a list buffer, and Rust panics (`unwrap` / `expect` on a missing pointer
position) are modelled by `Option` results (`none` = panic).
-/

/-- Clip record: `{id: u64, start: f32, end: f32}` (`end` is a Lean keyword,
so the field is named `stop`). -/
structure Clip where
  id : ℕ
  start : ℚ
  stop : ℚ
  deriving DecidableEq, Repr

/-- GuiAction: the Intent tagged union sent from the GUI thread to the host
(`gui_actions` module in lib.rs). -/
inductive GuiAction where
  | none : GuiAction
  | togglePause : GuiAction
  | close : GuiAction
  | seek (pos : ℚ) : GuiAction
  | clipAdd (clip : Clip) : GuiAction
  | clipRemove (pos : ℚ) : GuiAction
  | clipEdit (clip : Clip) : GuiAction
  | save : GuiAction
  deriving DecidableEq, Repr

/-- AppStateSnapshot: the host-state copy read once per paint pass.  Only the
fields the interaction engine reads are modelled (the clip array and text
span are consumed by rendering only). -/
structure AppStateSnapshot where
  paused : Bool
  current_position : ℚ
  total_runtime : ℚ
  deriving DecidableEq, Repr

/-- The egui `Response` data the timeline code reads: per-frame drag flags
for the primary and secondary pointer buttons, the interact pointer
position's x coordinate (`none` when egui has no pointer position, in which
case the code's `expect` panics), whether the pointer is over the widget,
and the response rect's width (used by `handle_pan`). -/
structure Response where
  drag_started_primary : Bool
  drag_stopped_primary : Bool
  dragged_primary : Bool
  dragged_secondary : Bool
  interact_pointer_x : Option ℚ
  contains_pointer : Bool
  rect_width : ℚ
  deriving DecidableEq, Repr

/-- ProgressPosConverter: conversions between window-pixel space and
timeline ("audio") space.  The egui `Rect` is reduced to the `left()` and
`width()` values the x-coordinate math reads. -/
structure ProgressPosConverter where
  zoom : ℚ
  widget_center_norm : ℚ
  rect_left : ℚ
  rect_width : ℚ
  total_runtime : ℚ
  deriving DecidableEq, Repr

/-- `ProgressPosConverter::duration_to_rect_pos`. -/
def ProgressPosConverter.duration_to_rect_pos (c : ProgressPosConverter)
    (duration_pos : ℚ) : ℚ :=
  let duration_pos_norm := duration_pos / c.total_runtime
  let duration_norm_adjusted :=
    (duration_pos_norm - c.widget_center_norm) * c.zoom + 1/2
  duration_norm_adjusted * c.rect_width + c.rect_left

/-- `ProgressPosConverter::rect_to_duration_norm`. -/
def ProgressPosConverter.rect_to_duration_norm (c : ProgressPosConverter)
    (x_pos_rect : ℚ) : ℚ :=
  let rect_pos_norm := (x_pos_rect - c.rect_left) / c.rect_width
  (rect_pos_norm - 1/2) / c.zoom + c.widget_center_norm

/-- `ProgressPosConverter::rect_to_duration`. -/
def ProgressPosConverter.rect_to_duration (c : ProgressPosConverter)
    (x_pos_rect : ℚ) : ℚ :=
  c.rect_to_duration_norm x_pos_rect * c.total_runtime

/-- SeekState: the drag-arbitration state, `{paused_on_click: bool}`. -/
structure SeekState where
  paused_on_click : Bool
  deriving DecidableEq, Repr

/-- `SeekState::should_toggle_pause`: on primary drag-start captures
`paused_on_click := state.paused` and returns true if the stream was
playing; on primary drag-stop returns true only when the captured
`paused_on_click` is false.  Returns the decision together with the updated
state. -/
def should_toggle_pause (s : SeekState) (response : Response)
    (state : AppStateSnapshot) : Bool × SeekState :=
  let s' : SeekState :=
    if response.drag_started_primary then { paused_on_click := state.paused }
    else s
  if response.drag_started_primary && !state.paused then (true, s')
  else if response.drag_stopped_primary && !s'.paused_on_click then (true, s')
  else (false, s')

/-- `ProgressBar::handle_seek` (it reads no `ProgressBar` fields): when the
response is a primary drag it converts the interact pointer x to a timeline
position, sends a `Seek` intent and returns the position; then it consults
`should_toggle_pause` and sends `TogglePause` if required.  The `expect` on
a missing pointer position while dragging is modelled by `Option.none`
(a panic).  Result: (returned position, updated seek state, intents sent in
order). -/
def handle_seek (converter : ProgressPosConverter) (response : Response)
    (state : AppStateSnapshot) (seek_state : SeekState) :
    Option (Option ℚ × SeekState × List GuiAction) := do
  let (ret, acts) ←
    if response.dragged_primary then
      match response.interact_pointer_x with
      | Option.some x =>
          let duration_pos := converter.rect_to_duration x
          Option.some (Option.some duration_pos, [GuiAction.seek duration_pos])
      | Option.none => Option.none
    else Option.some ((Option.none : Option ℚ), ([] : List GuiAction))
  let (tog, s') := should_toggle_pause seek_state response state
  Option.some (ret, s', acts ++ if tog then [GuiAction.togglePause] else [])

/-- Runs `handle_seek` over a sequence of per-frame (response, snapshot)
pairs, threading the seek state and concatenating the sent intents. -/
def run_seek_frames (converter : ProgressPosConverter)
    (frames : List (Response × AppStateSnapshot)) (seek_state : SeekState) :
    Option (SeekState × List GuiAction) :=
  match frames with
  | [] => Option.some (seek_state, [])
  | f :: rest => do
      let (_, s1, a1) ← handle_seek converter f.1 f.2 seek_state
      let (s2, a2) ← run_seek_frames converter rest s1
      Option.some (s2, a1 ++ a2)

/-- The response egui reports on the frame a primary-button drag starts,
with the pointer at pixel `x`. -/
def start_response_of (x : ℚ) : Response :=
  { drag_started_primary := true, drag_stopped_primary := false,
    dragged_primary := true, dragged_secondary := false,
    interact_pointer_x := Option.some x, contains_pointer := true,
    rect_width := 0 }

/-- The response egui reports on a mid-drag frame with the pointer at
pixel `x`. -/
def mid_response_of (x : ℚ) : Response :=
  { drag_started_primary := false, drag_stopped_primary := false,
    dragged_primary := true, dragged_secondary := false,
    interact_pointer_x := Option.some x, contains_pointer := true,
    rect_width := 0 }

/-- The response egui reports on the frame the primary button is
released. -/
def stop_response : Response :=
  { drag_started_primary := false, drag_stopped_primary := true,
    dragged_primary := false, dragged_secondary := false,
    interact_pointer_x := Option.none, contains_pointer := true,
    rect_width := 0 }

/-- The response of a widget the pointer is not interacting with. -/
def idle_response : Response :=
  { drag_started_primary := false, drag_stopped_primary := false,
    dragged_primary := false, dragged_secondary := false,
    interact_pointer_x := Option.none, contains_pointer := false,
    rect_width := 0 }

/-- The drag-start frame of a primary-button seek drag: the pointer pressed
at pixel `x` over a host snapshot `st`. -/
def mk_drag_start (x : ℚ) (st : AppStateSnapshot) :
    Response × AppStateSnapshot :=
  (start_response_of x, st)

/-- A mid-drag frame: still dragging at pixel `m.1`, current host snapshot
`m.2` (arbitrary — the pause flag may have changed under the drag). -/
def mk_drag_mid (m : ℚ × AppStateSnapshot) :
    Response × AppStateSnapshot :=
  (mid_response_of m.1, m.2)

/-- The drag-stop frame: the primary button released, over an arbitrary
host snapshot `st`. -/
def mk_drag_stop (st : AppStateSnapshot) :
    Response × AppStateSnapshot :=
  (stop_response, st)

/-- GuiInner: the bridge state guarded by the mutex — the optional egui
context (ready-handle, modelled as `Option Unit`) and the mpsc channel
buffer holding queued intents in FIFO order (oldest first). -/
structure GuiInner where
  ctx : Option Unit
  queue : List GuiAction
  deriving DecidableEq, Repr

/-- `gui_next_action`: non-blocking poll.  `try_recv` pops the oldest
queued intent if any; otherwise the result is `None` while the ready-handle
is set and `Close` once it has been cleared.  Returns the intent together
with the updated bridge state. -/
def gui_next_action (g : GuiInner) : GuiAction × GuiInner :=
  match g.queue with
  | a :: rest => (a, { g with queue := rest })
  | [] =>
      if g.ctx.isSome then (GuiAction.none, g) else (GuiAction.close, g)

/-- `n + 1` successive `gui_next_action` polls; result of the last one. -/
def iterate_next_action (g : GuiInner) : ℕ → GuiAction × GuiInner
  | 0 => gui_next_action g
  | n + 1 => iterate_next_action (gui_next_action g).2 n

/-- Rust `f32::clamp` on exact rationals: `x.clamp(lo, hi)`. -/
def clampQ (x lo hi : ℚ) : ℚ :=
  if x < lo then lo else if hi < x then hi else x

/-- ProgressBar: the persistent timeline-widget state — zoom, view center
and the optional pending clip being created. -/
structure ProgressBar where
  zoom : ℚ
  widget_center_norm : ℚ
  pending_clip : Option Clip
  deriving DecidableEq, Repr

/-- `ProgressBar::handle_clip_creation`.  If a pending clip exists: a
primary drag-stop sends `ClipAdd(pending)` and clears it, any other frame
moves the pending clip's end to the pointer position.  Otherwise a primary
drag with ctrl held starts a pending clip `{id: 0, start: p, end: p}`.
The two `expect`s on a missing pointer position are `Option.none`
(panics). -/
def handle_clip_creation (converter : ProgressPosConverter)
    (ctrl_down : Bool) (response : Response) (pb : ProgressBar) :
    Option (ProgressBar × List GuiAction) :=
  let primary_down := response.dragged_primary
  match pb.pending_clip with
  | Option.some pending =>
      if response.drag_stopped_primary then
        Option.some ({ pb with pending_clip := Option.none },
          [GuiAction.clipAdd pending])
      else
        match response.interact_pointer_x with
        | Option.some x =>
            let pending' := { pending with stop := converter.rect_to_duration x }
            Option.some ({ pb with pending_clip := Option.some pending' }, [])
        | Option.none => Option.none
  | Option.none =>
      if primary_down && ctrl_down then
        match response.interact_pointer_x with
        | Option.some x =>
            let duration_pos := converter.rect_to_duration x
            let pending' : Clip := ⟨0, duration_pos, duration_pos⟩
            Option.some ({ pb with pending_clip := Option.some pending' }, [])
        | Option.none => Option.none
      else Option.some (pb, [])

/-- `ProgressBar::handle_pan`: a secondary-button drag shifts the view
center by `-Δx / rect.width / zoom`, clamped to `[0, 1]`. -/
def handle_pan (response : Response) (pointer_delta_x : ℚ)
    (pb : ProgressBar) : ProgressBar :=
  if response.dragged_secondary then
    let c := pb.widget_center_norm
      - pointer_delta_x / response.rect_width / pb.zoom
    { pb with widget_center_norm := clampQ c 0 1 }
  else pb

/-- The code's `pointer_pos_audio` value in `handle_zoom`: the pointer's
pre-zoom normalized position, or `0.5` when egui has no pointer
position. -/
def zoom_pointer_norm (converter : ProgressPosConverter)
    (latest_pos_x : Option ℚ) : ℚ :=
  match latest_pos_x with
  | Option.some x => converter.rect_to_duration_norm x
  | Option.none => 1/2

/-- `ProgressBar::handle_zoom`: when the pointer is over the widget,
multiply zoom by `1.001^(scroll_delta * 3.0)` (the scroll delta is
modelled as an integer so the power is an exact rational `zpow`), floor it
at `1.0`, and shift the center so the distance to the pointer's pre-zoom
normalized position scales by `old_zoom / new_zoom`. -/
def handle_zoom (converter : ProgressPosConverter) (response : Response)
    (latest_pos_x : Option ℚ) (scroll_delta : ℤ) (pb : ProgressBar) :
    ProgressBar :=
  if response.contains_pointer then
    let pointer_pos_audio := zoom_pointer_norm converter latest_pos_x
    let old_zoom := pb.zoom
    let zoom1 := pb.zoom * (1001/1000 : ℚ) ^ (scroll_delta * 3)
    let zoom2 := max zoom1 1
    let dist_from_center := pointer_pos_audio - pb.widget_center_norm
    let new_dist_from_center := old_zoom / zoom2 * dist_from_center
    { pb with
      zoom := zoom2,
      widget_center_norm :=
        pb.widget_center_norm + dist_from_center - new_dist_from_center }
  else pb

/-- `ProgressBar::clamp_widget_center`: clamp the center into
`[0.5/zoom, 1 - 0.5/zoom]`. -/
def clamp_widget_center (pb : ProgressBar) : ProgressBar :=
  let lo := 1/2 / pb.zoom
  let hi := 1 - lo
  { pb with widget_center_norm := clampQ pb.widget_center_norm lo hi }

/-- The `ProgressBar` constructed in `EframeImpl::new`: zoom `1.0`, center
`0.5`, no pending clip. -/
def initial_progress_bar : ProgressBar := ⟨1, 1/2, Option.none⟩

/-- One paint frame's worth of input to `handle_response`: the widget
response, the ctrl-modifier flag, the pointer x delta (pan), the latest
pointer x position (zoom), the scroll delta and the host snapshot, plus the
widget rect's left edge. -/
structure Frame where
  response : Response
  ctrl_down : Bool
  pointer_delta_x : ℚ
  latest_pos_x : Option ℚ
  scroll_delta : ℤ
  state : AppStateSnapshot
  rect_left : ℚ
  deriving DecidableEq, Repr

/-- The `ProgressPosConverter` built at the top of `ProgressBar::show` from
the current widget state, the response rect and the snapshot's total
runtime. -/
def frame_converter (f : Frame) (pb : ProgressBar) : ProgressPosConverter :=
  { zoom := pb.zoom, widget_center_norm := pb.widget_center_norm,
    rect_left := f.rect_left, rect_width := f.response.rect_width,
    total_runtime := f.state.total_runtime }

/-- `ProgressBar::handle_response`: clip creation, seek, pan, zoom, then
the center clamp, in the source's order. -/
def handle_response (converter : ProgressPosConverter) (f : Frame)
    (pb : ProgressBar) (seek_state : SeekState) :
    Option (ProgressBar × SeekState × List GuiAction) := do
  let (pb1, a1) ← handle_clip_creation converter f.ctrl_down f.response pb
  let (_, s2, a2) ← handle_seek converter f.response f.state seek_state
  let pb2 := handle_pan f.response f.pointer_delta_x pb1
  let pb3 := handle_zoom converter f.response f.latest_pos_x f.scroll_delta pb2
  let pb4 := clamp_widget_center pb3
  Option.some (pb4, s2, a1 ++ a2)

/-- Runs `handle_response` over successive frames, rebuilding the converter
from the current widget state each frame as `ProgressBar::show` does. -/
def run_frames (frames : List Frame) (pb : ProgressBar) (s : SeekState) :
    Option (ProgressBar × SeekState × List GuiAction) :=
  match frames with
  | [] => Option.some (pb, s, [])
  | f :: rest => do
      let (pb1, s1, a1) ← handle_response (frame_converter f pb) f pb s
      let (pb2, s2, a2) ← run_frames rest pb1 s1
      Option.some (pb2, s2, a1 ++ a2)

/-- The ViewState invariant: zoom at least 1 and the view center within
`[0.5/zoom, 1 - 0.5/zoom]`. -/
def view_state_inv (pb : ProgressBar) : Prop :=
  1 ≤ pb.zoom ∧ 1/2 / pb.zoom ≤ pb.widget_center_norm ∧
    pb.widget_center_norm ≤ 1 - 1/2 / pb.zoom

/-- `ClipTimelineRenderer::render_clip`, interaction part: run `handle_seek`
on the clip's start-boundary handle, then on its end-boundary handle; if
either returned a position, the edited clip (with that boundary moved
there) is sent as a single `ClipEdit` after the handles.  Rendering calls
are omitted; intents are returned in send order. -/
def render_clip (converter : ProgressPosConverter) (clip : Clip)
    (start_response end_response : Response) (state : AppStateSnapshot)
    (seek_state : SeekState) : Option (SeekState × List GuiAction) := do
  let (r1, s1, a1) ← handle_seek converter start_response state seek_state
  let edited1 : Clip :=
    match r1 with
    | Option.some pos => { clip with start := pos }
    | Option.none => clip
  let changed1 := r1.isSome
  let (r2, s2, a2) ← handle_seek converter end_response state s1
  let edited2 : Clip :=
    match r2 with
    | Option.some pos => { edited1 with stop := pos }
    | Option.none => edited1
  let changed2 := changed1 || r2.isSome
  Option.some (s2,
    a1 ++ a2 ++ if changed2 then [GuiAction.clipEdit edited2] else [])

/-- One paint frame's input to `render_clip` for a given clip: the clip as
the snapshot reports it, the two boundary-handle responses and the
snapshot. -/
structure ClipFrame where
  clip : Clip
  start_response : Response
  end_response : Response
  state : AppStateSnapshot
  deriving DecidableEq, Repr

/-- Runs `render_clip` over successive frames, threading the seek state and
concatenating the sent intents. -/
def run_render_clip (converter : ProgressPosConverter)
    (frames : List ClipFrame) (seek_state : SeekState) :
    Option (SeekState × List GuiAction) :=
  match frames with
  | [] => Option.some (seek_state, [])
  | f :: rest => do
      let (s1, a1) ← render_clip converter f.clip f.start_response
        f.end_response f.state seek_state
      let (s2, a2) ← run_render_clip converter rest s1
      Option.some (s2, a1 ++ a2)

/-- Frame starting a drag of a clip's start-boundary handle at pixel `x`. -/
def clip_start_press (c : Clip) (x : ℚ) (st : AppStateSnapshot) :
    ClipFrame :=
  ⟨c, start_response_of x, idle_response, st⟩

/-- Mid-drag frame of a start-boundary drag: clip `m.1` (as the snapshot
now reports it), pointer at pixel `m.2.1`, snapshot `m.2.2`. -/
def clip_start_move (m : Clip × ℚ × AppStateSnapshot) : ClipFrame :=
  ⟨m.1, mid_response_of m.2.1, idle_response, m.2.2⟩

/-- Release frame of a start-boundary drag. -/
def clip_start_release (c : Clip) (st : AppStateSnapshot) : ClipFrame :=
  ⟨c, stop_response, idle_response, st⟩

/-- Frame starting a drag of a clip's end-boundary handle at pixel `x`. -/
def clip_stop_press (c : Clip) (x : ℚ) (st : AppStateSnapshot) :
    ClipFrame :=
  ⟨c, idle_response, start_response_of x, st⟩

/-- Mid-drag frame of an end-boundary drag. -/
def clip_stop_move (m : Clip × ℚ × AppStateSnapshot) : ClipFrame :=
  ⟨m.1, idle_response, mid_response_of m.2.1, m.2.2⟩

/-- Release frame of an end-boundary drag. -/
def clip_stop_release (c : Clip) (st : AppStateSnapshot) : ClipFrame :=
  ⟨c, idle_response, stop_response, st⟩

/-- The mpsc intent channel as its `Sender` half sees it: whether the
`Receiver` (owned by the leaked `Gui`, dropped by `gui_free`) is still
alive, and the unbounded FIFO buffer. -/
structure Channel where
  receiver_alive : Bool
  buffer : List GuiAction
  deriving DecidableEq, Repr

/-- `std::sync::mpsc::Sender::send` on an unbounded channel: never blocks;
appends and returns `Ok` while the receiver is alive, returns
`Err(SendError)` and changes nothing once the receiver has been dropped. -/
def mpsc_send (c : Channel) (a : GuiAction) : Channel × Bool :=
  if c.receiver_alive then ({ c with buffer := c.buffer ++ [a] }, true)
  else (c, false)

/-- Every intent send in the GUI code unwraps the send result
(`.unwrap()` / `.expect("failed to send action from gui")` in
`handle_seek`, `handle_clip_creation`, `render_clip` and
`EframeImpl::update`): an `Err` from `send` panics the GUI thread,
modelled as `Option.none`. -/
def send_unwrap (c : Channel) (a : GuiAction) : Option Channel :=
  match mpsc_send c a with
  | (c', true) => Option.some c'
  | (_, false) => Option.none

/-- The `gui_wait_start` loop, step-indexed: `trace k` is the value of the
ready-handle `ctx` the loop observes at its `k`-th check under the mutex
(the loop re-checks after every condition-variable wakeup).
`wait_start_within trace n` says whether the loop has returned within the
first `n` checks: it returns at check `k` exactly when `trace k` is set. -/
def wait_start_within (trace : ℕ → Option Unit) : ℕ → Bool
  | 0 => false
  | n + 1 => wait_start_within trace n || (trace n).isSome

/-- Evaluation of `handle_seek` on a mid-drag frame: one `Seek`, seek state
unchanged. -/
theorem handle_seek_mid (converter : ProgressPosConverter)
    (m : ℚ × AppStateSnapshot) (s : SeekState) :
    handle_seek converter (mk_drag_mid m).1 (mk_drag_mid m).2 s =
      Option.some (Option.some (converter.rect_to_duration m.1), s,
        [GuiAction.seek (converter.rect_to_duration m.1)]) := rfl

/-- Mid-drag frames emit exactly one `Seek` each and leave the seek state
unchanged. -/
theorem run_seek_frames_mids (converter : ProgressPosConverter)
    (mids : List (ℚ × AppStateSnapshot))
    (rest : List (Response × AppStateSnapshot)) (s : SeekState) :
    run_seek_frames converter (mids.map mk_drag_mid ++ rest) s =
      (run_seek_frames converter rest s).bind fun p =>
        Option.some (p.1,
          mids.map (fun m => GuiAction.seek (converter.rect_to_duration m.1))
            ++ p.2) := by
  induction mids with
  | nil =>
      cases h : run_seek_frames converter rest s with
      | none => simp [h]
      | some p => simp [h]
  | cons m ms ih =>
      simp only [List.map_cons, List.cons_append, run_seek_frames,
        handle_seek_mid, Option.bind_eq_bind, Option.some_bind,
        List.append_eq, ih]
      cases run_seek_frames converter rest s with
      | none => rfl
      | some p => simp

/-- Evaluation of `handle_seek` on the drag-start frame over a playing
stream: a `Seek` then a `TogglePause`, and the pause flag is captured. -/
theorem handle_seek_start_playing (converter : ProgressPosConverter)
    (x cp tr : ℚ) (s : SeekState) :
    handle_seek converter (mk_drag_start x ⟨false, cp, tr⟩).1
        (mk_drag_start x ⟨false, cp, tr⟩).2 s =
      Option.some (Option.some (converter.rect_to_duration x),
        ⟨false⟩, [GuiAction.seek (converter.rect_to_duration x),
          GuiAction.togglePause]) := rfl

/-- Evaluation of `handle_seek` on the drag-start frame over a paused
stream: only a `Seek`, and the pause flag is captured. -/
theorem handle_seek_start_paused (converter : ProgressPosConverter)
    (x cp tr : ℚ) (s : SeekState) :
    handle_seek converter (mk_drag_start x ⟨true, cp, tr⟩).1
        (mk_drag_start x ⟨true, cp, tr⟩).2 s =
      Option.some (Option.some (converter.rect_to_duration x),
        ⟨true⟩, [GuiAction.seek (converter.rect_to_duration x)]) := rfl

/-- Evaluation of `handle_seek` on the drag-stop frame when the stream was
playing at drag-start (captured flag false): one `TogglePause`, whatever
the current snapshot `st` says. -/
theorem handle_seek_stop_resume (converter : ProgressPosConverter)
    (st : AppStateSnapshot) :
    handle_seek converter (mk_drag_stop st).1 (mk_drag_stop st).2 ⟨false⟩ =
      Option.some (Option.none, ⟨false⟩, [GuiAction.togglePause]) := rfl

/-- Evaluation of `handle_seek` on the drag-stop frame when the stream was
paused at drag-start (captured flag true): no intent, whatever the current
snapshot `st` says. -/
theorem handle_seek_stop_stay (converter : ProgressPosConverter)
    (st : AppStateSnapshot) :
    handle_seek converter (mk_drag_stop st).1 (mk_drag_stop st).2 ⟨true⟩ =
      Option.some (Option.none, ⟨true⟩, []) := rfl

/-- Claim C2: a complete primary-button seek drag (start frame, any mid
frames, stop frame).  If the stream was playing at drag-start the engine
emits `Seek`+`TogglePause` at the start frame, one `Seek` per mid frame,
and exactly one more `TogglePause` at the stop frame — two toggles total.
If the stream was paused at drag-start, zero `TogglePause` intents are
emitted for the whole drag.  The mid-frame and stop-frame snapshots
(`mids`'s second components and `st_stop`) are arbitrary, so the stop
decision depends only on the pause flag captured at drag-start, never on
the current snapshot. -/
theorem C2_seek_drag_pause_arbitration (converter : ProgressPosConverter)
    (x0 cp0 tr0 : ℚ) (mids : List (ℚ × AppStateSnapshot))
    (st_stop : AppStateSnapshot) (s0 : SeekState) :
    (run_seek_frames converter
        (mk_drag_start x0 ⟨false, cp0, tr0⟩ ::
          (mids.map mk_drag_mid ++ [mk_drag_stop st_stop])) s0 =
      Option.some (⟨false⟩,
        GuiAction.seek (converter.rect_to_duration x0) ::
          GuiAction.togglePause ::
          (mids.map (fun m => GuiAction.seek (converter.rect_to_duration m.1))
            ++ [GuiAction.togglePause]))) ∧
    (run_seek_frames converter
        (mk_drag_start x0 ⟨true, cp0, tr0⟩ ::
          (mids.map mk_drag_mid ++ [mk_drag_stop st_stop])) s0 =
      Option.some (⟨true⟩,
        GuiAction.seek (converter.rect_to_duration x0) ::
          mids.map (fun m =>
            GuiAction.seek (converter.rect_to_duration m.1)))) := by
  constructor
  · simp only [run_seek_frames, handle_seek_start_playing,
      Option.bind_eq_bind, Option.some_bind, run_seek_frames_mids,
      handle_seek_stop_resume]
    simp
  · simp only [run_seek_frames, handle_seek_start_paused,
      Option.bind_eq_bind, Option.some_bind, run_seek_frames_mids,
      handle_seek_stop_stay]
    simp

/-- Claim C3: `gui_next_action` (1) pops and returns the oldest queued
intent when the queue is non-empty, one per call; (2) returns `None` on an
empty queue while the ready-handle is set; (3) returns `Close` on an empty
queue once the ready-handle is cleared, and — since the poll never modifies
the ready-handle — every subsequent poll on the empty queue returns `Close`
forever.  The function is total, hence non-blocking. -/
theorem C3_next_action_drains_then_signals_close :
    (∀ (g : GuiInner) (a : GuiAction) (rest : List GuiAction),
      g.queue = a :: rest →
        gui_next_action g = (a, { g with queue := rest })) ∧
    (∀ g : GuiInner, g.queue = [] → g.ctx.isSome = true →
        gui_next_action g = (GuiAction.none, g)) ∧
    (∀ g : GuiInner, g.queue = [] → g.ctx = Option.none →
        ∀ n : ℕ, (iterate_next_action g n).1 = GuiAction.close) := by
  refine ⟨?_, ?_, ?_⟩
  · intro g a rest hq
    simp [gui_next_action, hq]
  · intro g hq hc
    simp [gui_next_action, hq, hc]
  · intro g hq hc
    have hstep : gui_next_action g = (GuiAction.close, g) := by
      simp [gui_next_action, hq, hc]
    intro n
    induction n with
    | zero => simp [iterate_next_action, hstep]
    | succ k ih => simpa [iterate_next_action, hstep] using ih

/-- Witness for C3 at concrete bridge states: a queued intent is popped
FIFO; an empty queue with the handle set yields `None`; an empty queue with
the handle cleared yields `Close` even after six further polls. -/
theorem C3_witness :
    gui_next_action ⟨Option.some (), [GuiAction.save, GuiAction.close]⟩ =
      (GuiAction.save, ⟨Option.some (), [GuiAction.close]⟩) ∧
    gui_next_action ⟨Option.some (), []⟩ =
      (GuiAction.none, ⟨Option.some (), []⟩) ∧
    (iterate_next_action ⟨Option.none, []⟩ 6).1 = GuiAction.close :=
  ⟨C3_next_action_drains_then_signals_close.1 _ _ _ rfl,
   C3_next_action_drains_then_signals_close.2.1 _ rfl rfl,
   C3_next_action_drains_then_signals_close.2.2 _ rfl rfl 6⟩

/-- Claim C5: the clip-creation two-state machine.  (1) A primary drag with
ctrl held and no pending clip creates `PendingClip{id: 0, start: p, end: p}`
at the pointer's timeline position; (2) while a pending clip exists, a
non-stop frame rewrites only its end to the pointer's timeline position
(id and start untouched); (3) a primary drag-stop emits exactly one
`ClipAdd` carrying the pending clip and clears it.  The state holds at most
one pending clip by construction (`pending_clip : Option Clip`). -/
theorem C5_clip_creation_state_machine (converter : ProgressPosConverter) :
    (∀ (response : Response) (pb : ProgressBar) (x : ℚ),
      pb.pending_clip = Option.none →
      response.dragged_primary = true →
      response.interact_pointer_x = Option.some x →
        handle_clip_creation converter true response pb =
          Option.some ({ pb with pending_clip := Option.some (Clip.mk 0 (converter.rect_to_duration x) (converter.rect_to_duration x)) }, [])) ∧
    (∀ (ctrl_down : Bool) (response : Response) (pb : ProgressBar)
        (pending : Clip) (x : ℚ),
      pb.pending_clip = Option.some pending →
      response.drag_stopped_primary = false →
      response.interact_pointer_x = Option.some x →
        handle_clip_creation converter ctrl_down response pb =
          Option.some ({ pb with pending_clip := Option.some { pending with stop := converter.rect_to_duration x } }, [])) ∧
    (∀ (ctrl_down : Bool) (response : Response) (pb : ProgressBar)
        (pending : Clip),
      pb.pending_clip = Option.some pending →
      response.drag_stopped_primary = true →
        handle_clip_creation converter ctrl_down response pb =
          Option.some ({ pb with pending_clip := Option.none },
            [GuiAction.clipAdd pending])) := by
  refine ⟨?_, ?_, ?_⟩
  · intro response pb x hpc hdrag hptr
    simp [handle_clip_creation, hpc, hdrag, hptr]
  · intro ctrl_down response pb pending x hpc hstop hptr
    simp [handle_clip_creation, hpc, hstop, hptr]
  · intro ctrl_down response pb pending hpc hstop
    simp [handle_clip_creation, hpc, hstop]

/-- Witness for C5: the spec scenario — with an identity-like converter
(zoom 1, center 0.5, rect `[0, 1]`, runtime 1), press at `10.0` with ctrl
held creates `{0, 10, 10}`, a move to `15.0` turns it into `{0, 10, 15}`,
and release emits exactly one `ClipAdd{0, 10, 15}` and clears the pending
clip. -/
theorem C5_witness :
    handle_clip_creation ⟨1, 1/2, 0, 1, 1⟩ true
        ⟨false, false, true, false, Option.some 10, true, 1⟩
        ⟨1, 1/2, Option.none⟩ =
      Option.some (⟨1, 1/2, Option.some ⟨0,
        ProgressPosConverter.rect_to_duration ⟨1, 1/2, 0, 1, 1⟩ 10,
        ProgressPosConverter.rect_to_duration ⟨1, 1/2, 0, 1, 1⟩ 10⟩⟩,
        []) ∧
    handle_clip_creation ⟨1, 1/2, 0, 1, 1⟩ true
        ⟨false, false, true, false, Option.some 15, true, 1⟩
        ⟨1, 1/2, Option.some ⟨0, 10, 10⟩⟩ =
      Option.some (⟨1, 1/2, Option.some ⟨0, 10,
        ProgressPosConverter.rect_to_duration ⟨1, 1/2, 0, 1, 1⟩ 15⟩⟩,
        []) ∧
    handle_clip_creation ⟨1, 1/2, 0, 1, 1⟩ true
        ⟨false, true, false, false, Option.none, true, 1⟩
        ⟨1, 1/2, Option.some ⟨0, 10, 15⟩⟩ =
      Option.some (⟨1, 1/2, Option.none⟩,
        [GuiAction.clipAdd ⟨0, 10, 15⟩]) :=
  ⟨(C5_clip_creation_state_machine _).1 _ _ 10 rfl rfl rfl,
   (C5_clip_creation_state_machine _).2.1 true _ _ ⟨0, 10, 10⟩ 15 rfl rfl rfl,
   (C5_clip_creation_state_machine _).2.2 true _ _ ⟨0, 10, 15⟩ rfl rfl⟩

/-- `handle_clip_creation` never touches zoom or center. -/
theorem handle_clip_creation_keeps_view (converter : ProgressPosConverter)
    (ctrl_down : Bool) (response : Response) (pb pb1 : ProgressBar)
    (a : List GuiAction)
    (h : handle_clip_creation converter ctrl_down response pb =
      Option.some (pb1, a)) :
    pb1.zoom = pb.zoom ∧ pb1.widget_center_norm = pb.widget_center_norm := by
  cases hpc : pb.pending_clip with
  | some pending =>
      cases hstop : response.drag_stopped_primary with
      | true =>
          simp only [handle_clip_creation, hpc, hstop, if_true,
            Option.some.injEq, Prod.mk.injEq] at h
          obtain ⟨h1, -⟩ := h
          subst h1
          exact ⟨rfl, rfl⟩
      | false =>
          cases hptr : response.interact_pointer_x with
          | some x =>
              simp only [handle_clip_creation, hpc, hstop, hptr,
                Bool.false_eq_true, if_false, Option.some.injEq,
                Prod.mk.injEq] at h
              obtain ⟨h1, -⟩ := h
              subst h1
              exact ⟨rfl, rfl⟩
          | none =>
              simp [handle_clip_creation, hpc, hstop, hptr] at h
  | none =>
      cases hpd : response.dragged_primary with
      | false =>
          simp only [handle_clip_creation, hpc, hpd, Bool.false_and,
            Bool.false_eq_true, if_false, Option.some.injEq,
            Prod.mk.injEq] at h
          obtain ⟨h1, -⟩ := h
          subst h1
          exact ⟨rfl, rfl⟩
      | true =>
          cases ctrl_down with
          | false =>
              simp only [handle_clip_creation, hpc, hpd, Bool.and_false,
                Bool.false_eq_true, if_false, Option.some.injEq,
                Prod.mk.injEq] at h
              obtain ⟨h1, -⟩ := h
              subst h1
              exact ⟨rfl, rfl⟩
          | true =>
              cases hptr : response.interact_pointer_x with
              | some x =>
                  simp only [handle_clip_creation, hpc, hpd, hptr,
                    Bool.and_self, if_true, Option.some.injEq,
                    Prod.mk.injEq] at h
                  obtain ⟨h1, -⟩ := h
                  subst h1
                  exact ⟨rfl, rfl⟩
              | none =>
                  simp [handle_clip_creation, hpc, hpd, hptr] at h

/-- `handle_pan` never touches zoom. -/
theorem handle_pan_keeps_zoom (response : Response) (dx : ℚ)
    (pb : ProgressBar) : (handle_pan response dx pb).zoom = pb.zoom := by
  unfold handle_pan
  split <;> rfl

/-- `handle_zoom` keeps zoom at least 1. -/
theorem handle_zoom_ge_one (converter : ProgressPosConverter)
    (response : Response) (latest_pos_x : Option ℚ) (scroll_delta : ℤ)
    (pb : ProgressBar) (h : 1 ≤ pb.zoom) :
    1 ≤ (handle_zoom converter response latest_pos_x scroll_delta pb).zoom := by
  unfold handle_zoom
  split
  · exact le_max_right _ _
  · exact h

/-- `clampQ` lands in `[lo, hi]` whenever `lo ≤ hi`. -/
theorem clampQ_mem (x lo hi : ℚ) (h : lo ≤ hi) :
    lo ≤ clampQ x lo hi ∧ clampQ x lo hi ≤ hi := by
  unfold clampQ
  split_ifs with h1 h2 <;> constructor <;> linarith

/-- `clamp_widget_center` establishes the full ViewState invariant from
zoom ≥ 1. -/
theorem clamp_widget_center_establishes_inv (pb : ProgressBar)
    (h : 1 ≤ pb.zoom) : view_state_inv (clamp_widget_center pb) := by
  have hz0 : (0 : ℚ) < pb.zoom := by linarith
  have hlo : 1/2 / pb.zoom ≤ 1/2 :=
    div_le_self (by norm_num) h
  have hlohi : 1/2 / pb.zoom ≤ 1 - 1/2 / pb.zoom := by linarith
  have hmem := clampQ_mem pb.widget_center_norm (1/2 / pb.zoom)
    (1 - 1/2 / pb.zoom) hlohi
  exact ⟨h, hmem.1, hmem.2⟩

/-- One `handle_response` step establishes the ViewState invariant from
zoom ≥ 1. -/
theorem handle_response_establishes_inv (converter : ProgressPosConverter)
    (f : Frame) (pb pb' : ProgressBar) (s s' : SeekState)
    (a : List GuiAction) (hz : 1 ≤ pb.zoom)
    (h : handle_response converter f pb s = Option.some (pb', s', a)) :
    view_state_inv pb' := by
  unfold handle_response at h
  cases hc : handle_clip_creation converter f.ctrl_down f.response pb with
  | none => rw [hc] at h; exact absurd h (by simp)
  | some q =>
      obtain ⟨pb1, a1⟩ := q
      rw [hc] at h
      cases hs : handle_seek converter f.response f.state s with
      | none => rw [hs] at h; exact absurd h (by simp)
      | some r =>
          obtain ⟨ret, s2, a2⟩ := r
          rw [hs] at h
          simp only [Option.bind_eq_bind, Option.some_bind,
            Option.some.injEq, Prod.mk.injEq] at h
          obtain ⟨h1, -⟩ := h
          subst h1
          apply clamp_widget_center_establishes_inv
          apply handle_zoom_ge_one
          rw [handle_pan_keeps_zoom,
            (handle_clip_creation_keeps_view converter f.ctrl_down
              f.response pb pb1 a1 hc).1]
          exact hz

/-- Claim C4: the ViewState invariant (zoom ≥ 1 and center within
`[0.5/zoom, 1 - 0.5/zoom]`) holds after every complete `handle_response`
step started with zoom ≥ 1, and it holds after any sequence of interaction
frames (pan, zoom, seek, clip creation, each followed by the clamp) run
from the initial widget state (zoom 1, center 0.5). -/
theorem C4_view_state_invariant :
    (∀ (converter : ProgressPosConverter) (f : Frame) (pb pb' : ProgressBar)
        (s s' : SeekState) (a : List GuiAction), 1 ≤ pb.zoom →
      handle_response converter f pb s = Option.some (pb', s', a) →
        view_state_inv pb') ∧
    (∀ (frames : List Frame) (s : SeekState) (pb' : ProgressBar)
        (s' : SeekState) (a : List GuiAction),
      run_frames frames initial_progress_bar s =
        Option.some (pb', s', a) → view_state_inv pb') := by
  constructor
  · exact fun converter f pb pb' s s' a hz h =>
      handle_response_establishes_inv converter f pb pb' s s' a hz h
  · have main : ∀ (frames : List Frame) (pb : ProgressBar) (s : SeekState)
        (pb' : ProgressBar) (s' : SeekState) (a : List GuiAction),
        view_state_inv pb →
        run_frames frames pb s = Option.some (pb', s', a) →
        view_state_inv pb' := by
      intro frames
      induction frames with
      | nil =>
          intro pb s pb' s' a hinv h
          simp only [run_frames, Option.some.injEq, Prod.mk.injEq] at h
          obtain ⟨h1, -⟩ := h
          subst h1
          exact hinv
      | cons f rest ih =>
          intro pb s pb' s' a hinv h
          simp only [run_frames] at h
          cases hstep : handle_response (frame_converter f pb) f pb s with
          | none => rw [hstep] at h; exact absurd h (by simp)
          | some q =>
              obtain ⟨pb1, s1, a1⟩ := q
              rw [hstep] at h
              simp only [Option.bind_eq_bind, Option.some_bind] at h
              cases hrun : run_frames rest pb1 s1 with
              | none => rw [hrun] at h; exact absurd h (by simp)
              | some r =>
                  obtain ⟨pb2, s2, a2⟩ := r
                  rw [hrun] at h
                  simp only [Option.some_bind, Option.some.injEq,
                    Prod.mk.injEq] at h
                  obtain ⟨h1, -⟩ := h
                  subst h1
                  have hinv1 : view_state_inv pb1 :=
                    handle_response_establishes_inv _ f pb pb1 s s1 a1
                      hinv.1 hstep
                  exact ih pb1 s1 pb2 s2 a2 hinv1 hrun
    intro frames s pb' s' a h
    refine main frames initial_progress_bar s pb' s' a ?_ h
    refine ⟨le_refl 1, ?_, ?_⟩ <;> norm_num [initial_progress_bar]

/-- Witness for C4: a no-input frame on the initial widget state leaves it
unchanged and satisfying the invariant, and the empty frame sequence from
the initial state satisfies it too. -/
theorem C4_witness :
    view_state_inv ⟨1, 1/2, Option.none⟩ ∧
    view_state_inv initial_progress_bar := by
  constructor
  · apply C4_view_state_invariant.1
      (frame_converter ⟨⟨false, false, false, false, Option.none, false, 1⟩,
        false, 0, Option.none, 0, ⟨false, 0, 1⟩, 0⟩ ⟨1, 1/2, Option.none⟩)
      ⟨⟨false, false, false, false, Option.none, false, 1⟩,
        false, 0, Option.none, 0, ⟨false, 0, 1⟩, 0⟩
      ⟨1, 1/2, Option.none⟩ ⟨1, 1/2, Option.none⟩ ⟨false⟩ ⟨false⟩ []
      (by norm_num)
    simp only [handle_response, handle_clip_creation, handle_seek,
      should_toggle_pause, handle_pan, handle_zoom, clamp_widget_center,
      clampQ, frame_converter, zoom_pointer_norm]
    norm_num
  · exact C4_view_state_invariant.2 [] ⟨false⟩ initial_progress_bar ⟨false⟩ []
      rfl

/-- Claim C6: zoom-at-cursor.  On scroll with the pointer over the widget
(converter built from the current widget state, as `show` does): (1) the
new zoom is `max(old_zoom * 1.001^(scroll_delta*3), 1)`; (2) the distance
from the center to the pointer's pre-zoom normalized position scales by
`old_zoom / new_zoom`; (3) consequently the timeline position under the
cursor maps back to the same pixel under the new zoom and center, before
any clamping; (4) when no pointer position is available the fallback
normalized position is `0.5`. -/
theorem C6_zoom_at_cursor (converter : ProgressPosConverter)
    (pb : ProgressBar) (response : Response) (latest_pos_x : Option ℚ)
    (scroll_delta : ℤ)
    (hcp : response.contains_pointer = true)
    (hz : converter.zoom = pb.zoom)
    (hc : converter.widget_center_norm = pb.widget_center_norm)
    (hz1 : 1 ≤ pb.zoom) (hw : converter.rect_width ≠ 0)
    (ht : converter.total_runtime ≠ 0) :
    (handle_zoom converter response latest_pos_x scroll_delta pb).zoom =
      max (pb.zoom * (1001/1000 : ℚ) ^ (scroll_delta * 3)) 1 ∧
    zoom_pointer_norm converter latest_pos_x -
        (handle_zoom converter response latest_pos_x scroll_delta
          pb).widget_center_norm =
      pb.zoom /
          (handle_zoom converter response latest_pos_x scroll_delta pb).zoom *
        (zoom_pointer_norm converter latest_pos_x -
          pb.widget_center_norm) ∧
    (∀ x : ℚ, latest_pos_x = Option.some x →
      ProgressPosConverter.duration_to_rect_pos
        { converter with
          zoom := (handle_zoom converter response latest_pos_x scroll_delta
            pb).zoom,
          widget_center_norm := (handle_zoom converter response latest_pos_x
            scroll_delta pb).widget_center_norm }
        (converter.rect_to_duration x) = x) ∧
    zoom_pointer_norm converter Option.none = 1/2 := by
  have hval : handle_zoom converter response latest_pos_x scroll_delta pb =
      { pb with
        zoom := max (pb.zoom * (1001/1000 : ℚ) ^ (scroll_delta * 3)) 1,
        widget_center_norm := pb.widget_center_norm +
          (zoom_pointer_norm converter latest_pos_x -
            pb.widget_center_norm) -
          pb.zoom / max (pb.zoom * (1001/1000 : ℚ) ^ (scroll_delta * 3)) 1 *
            (zoom_pointer_norm converter latest_pos_x -
              pb.widget_center_norm) } := by
    simp only [handle_zoom, hcp, if_true]
  have hznew1 : (1 : ℚ) ≤
      max (pb.zoom * (1001/1000 : ℚ) ^ (scroll_delta * 3)) 1 :=
    le_max_right _ _
  have hznew0 : max (pb.zoom * (1001/1000 : ℚ) ^ (scroll_delta * 3)) 1 ≠ 0 :=
    by positivity
  have hzp0 : pb.zoom ≠ 0 := by
    intro h0
    rw [h0] at hz1
    norm_num at hz1
  refine ⟨by rw [hval], by rw [hval]; ring, ?_, rfl⟩
  intro x hx
  subst hx
  rw [hval]
  simp only [zoom_pointer_norm]
  unfold ProgressPosConverter.duration_to_rect_pos
    ProgressPosConverter.rect_to_duration
    ProgressPosConverter.rect_to_duration_norm
  rw [hz, hc]
  field_simp
  ring

/-- Witness for C6 at a concrete state: zoom 1, center 0.5, rect `[0, 1]`,
runtime 1, pointer at pixel 0.75, one scroll step. -/
theorem C6_witness :
    (handle_zoom ⟨1, 1/2, 0, 1, 1⟩
        ⟨false, false, false, false, Option.none, true, 1⟩
        (Option.some (3/4)) 1 ⟨1, 1/2, Option.none⟩).zoom =
      max ((1 : ℚ) * (1001/1000 : ℚ) ^ ((1 : ℤ) * 3)) 1 ∧
    zoom_pointer_norm ⟨1, 1/2, 0, 1, 1⟩ (Option.some (3/4)) -
        (handle_zoom ⟨1, 1/2, 0, 1, 1⟩
          ⟨false, false, false, false, Option.none, true, 1⟩
          (Option.some (3/4)) 1 ⟨1, 1/2, Option.none⟩).widget_center_norm =
      (1 : ℚ) /
          (handle_zoom ⟨1, 1/2, 0, 1, 1⟩
            ⟨false, false, false, false, Option.none, true, 1⟩
            (Option.some (3/4)) 1 ⟨1, 1/2, Option.none⟩).zoom *
        (zoom_pointer_norm ⟨1, 1/2, 0, 1, 1⟩ (Option.some (3/4)) - 1/2) ∧
    ProgressPosConverter.duration_to_rect_pos
      { zoom := (handle_zoom ⟨1, 1/2, 0, 1, 1⟩
          ⟨false, false, false, false, Option.none, true, 1⟩
          (Option.some (3/4)) 1 ⟨1, 1/2, Option.none⟩).zoom,
        widget_center_norm := (handle_zoom ⟨1, 1/2, 0, 1, 1⟩
          ⟨false, false, false, false, Option.none, true, 1⟩
          (Option.some (3/4)) 1 ⟨1, 1/2, Option.none⟩).widget_center_norm,
        rect_left := 0, rect_width := 1, total_runtime := 1 }
      (ProgressPosConverter.rect_to_duration ⟨1, 1/2, 0, 1, 1⟩ (3/4)) =
        3/4 ∧
    zoom_pointer_norm ⟨1, 1/2, 0, 1, 1⟩ Option.none = 1/2 := by
  have H := C6_zoom_at_cursor ⟨1, 1/2, 0, 1, 1⟩ ⟨1, 1/2, Option.none⟩
    ⟨false, false, false, false, Option.none, true, 1⟩ (Option.some (3/4)) 1
    rfl rfl rfl (by norm_num) (by norm_num) (by norm_num)
  exact ⟨H.1, H.2.1, H.2.2.1 (3/4) rfl, H.2.2.2⟩

/-- Claim C1: for every valid converter state (zoom ≥ 1, positive rect
width, positive total runtime) the two coordinate transforms are exact
inverses in both directions.  Modelled over exact rationals, so the
"within floating-point tolerance" equality is exact, and the statement is
proved for every pixel `x` and every timeline position `p`, which covers
in particular the widget's pixel range. -/
theorem C1_converter_transforms_are_inverses (c : ProgressPosConverter)
    (hz : 1 ≤ c.zoom) (hw : 0 < c.rect_width) (ht : 0 < c.total_runtime) :
    (∀ x : ℚ, c.duration_to_rect_pos (c.rect_to_duration x) = x) ∧
    (∀ p : ℚ, c.rect_to_duration (c.duration_to_rect_pos p) = p) := by
  have hz0 : c.zoom ≠ 0 := by linarith
  have hw0 : c.rect_width ≠ 0 := ne_of_gt hw
  have ht0 : c.total_runtime ≠ 0 := ne_of_gt ht
  constructor
  · intro x
    unfold ProgressPosConverter.duration_to_rect_pos
      ProgressPosConverter.rect_to_duration
      ProgressPosConverter.rect_to_duration_norm
    field_simp
    ring
  · intro p
    unfold ProgressPosConverter.duration_to_rect_pos
      ProgressPosConverter.rect_to_duration
      ProgressPosConverter.rect_to_duration_norm
    field_simp
    ring

/-- Witness for C1 at a concrete valid converter state and concrete
inputs. -/
theorem C1_witness :
    let c : ProgressPosConverter :=
      { zoom := 2, widget_center_norm := 1/2, rect_left := 10,
        rect_width := 100, total_runtime := 60 }
    c.duration_to_rect_pos (c.rect_to_duration 37) = 37 ∧
    c.rect_to_duration (c.duration_to_rect_pos 12) = 12 := by
  intro c
  exact ⟨(C1_converter_transforms_are_inverses c (by norm_num) (by norm_num)
      (by norm_num)).1 37,
    (C1_converter_transforms_are_inverses c (by norm_num) (by norm_num)
      (by norm_num)).2 12⟩

/-- Evaluation of `render_clip` on a start-boundary press frame over a
playing stream. -/
theorem render_clip_start_press (converter : ProgressPosConverter)
    (c : Clip) (x cp tr : ℚ) (s : SeekState) :
    render_clip converter (clip_start_press c x ⟨false, cp, tr⟩).clip
        (clip_start_press c x ⟨false, cp, tr⟩).start_response
        (clip_start_press c x ⟨false, cp, tr⟩).end_response
        (clip_start_press c x ⟨false, cp, tr⟩).state s =
      Option.some (⟨false⟩,
        [GuiAction.seek (converter.rect_to_duration x),
         GuiAction.togglePause,
         GuiAction.clipEdit { c with start := converter.rect_to_duration x }]) :=
  rfl

/-- Evaluation of `render_clip` on a start-boundary mid-drag frame. -/
theorem render_clip_start_move (converter : ProgressPosConverter)
    (m : Clip × ℚ × AppStateSnapshot) (s : SeekState) :
    render_clip converter (clip_start_move m).clip
        (clip_start_move m).start_response
        (clip_start_move m).end_response
        (clip_start_move m).state s =
      Option.some (s,
        [GuiAction.seek (converter.rect_to_duration m.2.1),
         GuiAction.clipEdit
           { m.1 with start := converter.rect_to_duration m.2.1 }]) :=
  rfl

/-- Evaluation of `render_clip` on a start-boundary release frame when the
stream was playing at drag-start. -/
theorem render_clip_start_release (converter : ProgressPosConverter)
    (c : Clip) (st : AppStateSnapshot) :
    render_clip converter (clip_start_release c st).clip
        (clip_start_release c st).start_response
        (clip_start_release c st).end_response
        (clip_start_release c st).state ⟨false⟩ =
      Option.some (⟨false⟩, [GuiAction.togglePause]) :=
  rfl

/-- Evaluation of `render_clip` on an end-boundary press frame over a
playing stream. -/
theorem render_clip_stop_press (converter : ProgressPosConverter)
    (c : Clip) (x cp tr : ℚ) (s : SeekState) :
    render_clip converter (clip_stop_press c x ⟨false, cp, tr⟩).clip
        (clip_stop_press c x ⟨false, cp, tr⟩).start_response
        (clip_stop_press c x ⟨false, cp, tr⟩).end_response
        (clip_stop_press c x ⟨false, cp, tr⟩).state s =
      Option.some (⟨false⟩,
        [GuiAction.seek (converter.rect_to_duration x),
         GuiAction.togglePause,
         GuiAction.clipEdit { c with stop := converter.rect_to_duration x }]) :=
  rfl

/-- Evaluation of `render_clip` on an end-boundary mid-drag frame. -/
theorem render_clip_stop_move (converter : ProgressPosConverter)
    (m : Clip × ℚ × AppStateSnapshot) (s : SeekState) :
    render_clip converter (clip_stop_move m).clip
        (clip_stop_move m).start_response
        (clip_stop_move m).end_response
        (clip_stop_move m).state s =
      Option.some (s,
        [GuiAction.seek (converter.rect_to_duration m.2.1),
         GuiAction.clipEdit
           { m.1 with stop := converter.rect_to_duration m.2.1 }]) :=
  rfl

/-- Evaluation of `render_clip` on an end-boundary release frame when the
stream was playing at drag-start. -/
theorem render_clip_stop_release (converter : ProgressPosConverter)
    (c : Clip) (st : AppStateSnapshot) :
    render_clip converter (clip_stop_release c st).clip
        (clip_stop_release c st).start_response
        (clip_stop_release c st).end_response
        (clip_stop_release c st).state ⟨false⟩ =
      Option.some (⟨false⟩, [GuiAction.togglePause]) :=
  rfl

/-- Mid-drag frames of a start-boundary drag each emit a `Seek` followed by
a `ClipEdit`, and leave the seek state unchanged. -/
theorem run_render_clip_start_mids (converter : ProgressPosConverter)
    (mids : List (Clip × ℚ × AppStateSnapshot)) (rest : List ClipFrame)
    (s : SeekState) :
    run_render_clip converter (mids.map clip_start_move ++ rest) s =
      (run_render_clip converter rest s).bind fun p =>
        Option.some (p.1,
          (mids.flatMap fun m =>
            [GuiAction.seek (converter.rect_to_duration m.2.1),
             GuiAction.clipEdit
               { m.1 with start := converter.rect_to_duration m.2.1 }])
            ++ p.2) := by
  induction mids with
  | nil =>
      cases h : run_render_clip converter rest s with
      | none => simp [h]
      | some p => simp [h]
  | cons m ms ih =>
      simp only [List.map_cons, List.cons_append, run_render_clip,
        render_clip_start_move, Option.bind_eq_bind, Option.some_bind,
        List.append_eq, ih, List.flatMap_cons]
      cases run_render_clip converter rest s with
      | none => rfl
      | some p => simp

/-- Mid-drag frames of an end-boundary drag each emit a `Seek` followed by
a `ClipEdit`, and leave the seek state unchanged. -/
theorem run_render_clip_stop_mids (converter : ProgressPosConverter)
    (mids : List (Clip × ℚ × AppStateSnapshot)) (rest : List ClipFrame)
    (s : SeekState) :
    run_render_clip converter (mids.map clip_stop_move ++ rest) s =
      (run_render_clip converter rest s).bind fun p =>
        Option.some (p.1,
          (mids.flatMap fun m =>
            [GuiAction.seek (converter.rect_to_duration m.2.1),
             GuiAction.clipEdit
               { m.1 with stop := converter.rect_to_duration m.2.1 }])
            ++ p.2) := by
  induction mids with
  | nil =>
      cases h : run_render_clip converter rest s with
      | none => simp [h]
      | some p => simp [h]
  | cons m ms ih =>
      simp only [List.map_cons, List.cons_append, run_render_clip,
        render_clip_stop_move, Option.bind_eq_bind, Option.some_bind,
        List.append_eq, ih, List.flatMap_cons]
      cases run_render_clip converter rest s with
      | none => rfl
      | some p => simp

/-- Claim C10: dragging a clip boundary handle does not emit only
`ClipEdit`.  For a complete drag of either the start or the end boundary
over a playing stream: the press frame emits `Seek` at the dragged
position, then `TogglePause`, then the frame's `ClipEdit`; every mid frame
emits `Seek` at the dragged position before that frame's `ClipEdit`; and
the release frame emits the second `TogglePause` — the same pause
arbitration as a plain seek drag. -/
theorem C10_boundary_drag_seeks_and_toggles (converter : ProgressPosConverter)
    (c0 c1 : Clip) (x0 cp0 tr0 : ℚ)
    (mids : List (Clip × ℚ × AppStateSnapshot)) (st_stop : AppStateSnapshot)
    (s0 : SeekState) :
    (run_render_clip converter
        (clip_start_press c0 x0 ⟨false, cp0, tr0⟩ ::
          (mids.map clip_start_move ++ [clip_start_release c1 st_stop]))
        s0 =
      Option.some (⟨false⟩,
        GuiAction.seek (converter.rect_to_duration x0) ::
          GuiAction.togglePause ::
          GuiAction.clipEdit
            { c0 with start := converter.rect_to_duration x0 } ::
          ((mids.flatMap fun m =>
            [GuiAction.seek (converter.rect_to_duration m.2.1),
             GuiAction.clipEdit
               { m.1 with start := converter.rect_to_duration m.2.1 }])
            ++ [GuiAction.togglePause]))) ∧
    (run_render_clip converter
        (clip_stop_press c0 x0 ⟨false, cp0, tr0⟩ ::
          (mids.map clip_stop_move ++ [clip_stop_release c1 st_stop]))
        s0 =
      Option.some (⟨false⟩,
        GuiAction.seek (converter.rect_to_duration x0) ::
          GuiAction.togglePause ::
          GuiAction.clipEdit
            { c0 with stop := converter.rect_to_duration x0 } ::
          ((mids.flatMap fun m =>
            [GuiAction.seek (converter.rect_to_duration m.2.1),
             GuiAction.clipEdit
               { m.1 with stop := converter.rect_to_duration m.2.1 }])
            ++ [GuiAction.togglePause]))) := by
  constructor
  · simp only [run_render_clip, render_clip_start_press,
      Option.bind_eq_bind, Option.some_bind, run_render_clip_start_mids,
      render_clip_start_release]
    simp
  · simp only [run_render_clip, render_clip_stop_press,
      Option.bind_eq_bind, Option.some_bind, run_render_clip_stop_mids,
      render_clip_stop_release]
    simp

/-- Counterexample to claim C8 as stated: with the receiver gone, a send
from a GUI call site is not a silent no-op — `send` returns an error and
the call site's unwrap panics (`Option.none`), so in particular the result
is not the unchanged channel. -/
theorem C8_counterexample :
    send_unwrap ⟨false, []⟩ GuiAction.save = Option.none ∧
    send_unwrap ⟨false, []⟩ GuiAction.save ≠
      Option.some (⟨false, []⟩ : Channel) := by
  constructor
  · rfl
  · simp [send_unwrap, mpsc_send]

/-- Amended claim C8: a send on the intent queue never blocks and never
fails while the receiver is alive (it appends in FIFO order); but once the
receiving side has been dropped, `send` returns `SendError`, which every
GUI call site unwraps — the GUI thread panics instead of treating the send
as a silent no-op. -/
theorem C8_send_ok_while_alive_panics_after_drop :
    (∀ (c : Channel) (a : GuiAction), c.receiver_alive = true →
      send_unwrap c a =
        Option.some { c with buffer := c.buffer ++ [a] }) ∧
    (∀ (c : Channel) (a : GuiAction), c.receiver_alive = false →
      mpsc_send c a = (c, false) ∧ send_unwrap c a = Option.none) := by
  constructor
  · intro c a h
    simp [send_unwrap, mpsc_send, h]
  · intro c a h
    constructor
    · simp [mpsc_send, h]
    · simp [send_unwrap, mpsc_send, h]

/-- Witness for the amended C8 at concrete channels: a send with the
receiver alive appends FIFO; a send after the receiver was dropped leaves
the channel unchanged, reports the error, and the unwrapping call site
panics. -/
theorem C8_witness :
    send_unwrap ⟨true, [GuiAction.save]⟩ GuiAction.togglePause =
      Option.some ⟨true, [GuiAction.save, GuiAction.togglePause]⟩ ∧
    mpsc_send ⟨false, [GuiAction.save]⟩ GuiAction.togglePause =
      (⟨false, [GuiAction.save]⟩, false) ∧
    send_unwrap ⟨false, [GuiAction.save]⟩ GuiAction.togglePause =
      Option.none :=
  ⟨C8_send_ok_while_alive_panics_after_drop.1 ⟨true, [GuiAction.save]⟩
      GuiAction.togglePause rfl,
   (C8_send_ok_while_alive_panics_after_drop.2 ⟨false, [GuiAction.save]⟩
      GuiAction.togglePause rfl).1,
   (C8_send_ok_while_alive_panics_after_drop.2 ⟨false, [GuiAction.save]⟩
      GuiAction.togglePause rfl).2⟩

/-- Claim C9: `gui_wait_start` returns only after the ready-handle has been
set — while every observed `ctx` is empty the loop has not returned after
any number of checks (no timeout), and as soon as a check observes the
handle set, the loop returns. -/
theorem C9_wait_start_blocks_until_ready :
    (∀ trace : ℕ → Option Unit, (∀ k, trace k = Option.none) →
      ∀ n, wait_start_within trace n = false) ∧
    (∀ (trace : ℕ → Option Unit) (n : ℕ), (trace n).isSome = true →
      wait_start_within trace (n + 1) = true) := by
  constructor
  · intro trace h n
    induction n with
    | zero => rfl
    | succ k ih => simp [wait_start_within, ih, h k]
  · intro trace n h
    simp [wait_start_within, h]

/-- Witness for C9: with the handle never set the loop has not returned
after seven checks; with the handle set at the first check the loop has
returned. -/
theorem C9_witness :
    wait_start_within (fun _ => Option.none) 7 = false ∧
    wait_start_within (fun _ => Option.some ()) 1 = true :=
  ⟨C9_wait_start_blocks_until_ready.1 (fun _ => Option.none)
      (fun _ => rfl) 7,
   C9_wait_start_blocks_until_ready.2 (fun _ => Option.some ()) 0 rfl⟩

